import Mathlib

/-!
Shallow embedding of `src/beatmapview.py` (osu!taiko live beatmap viewer):
the chart parser `parse_osu_taiko`, the mod-bitmask derivation
`mods_to_speed_rate` / `mods_to_label`, the shared `GameState` mutated by the
websocket callbacks `on_message` / `on_precise_message`, and the per-note
visibility logic of the renderer's `draw` loop.

Modelling conventions:
* Python `int` is `Int`; Python `float` is `ℚ` (exact; IEEE rounding, `inf`
  and `nan` literals are not modelled — no claim depends on them).
* Python `int(str)` / `float(str)` are `pyInt?` / `pyFloat?` returning
  `none` on `ValueError`.  ASCII digits and ASCII whitespace only; Python's
  underscore grouping and unicode digits are not modelled.
* Strings are processed as `List Char`; `content.splitlines()` is modelled
  as splitting on `'\n'`, and each line is immediately `.strip()`ped
  exactly as in the source, which also absorbs a trailing `'\r'`.
* Python's `n & (2^k)` truthiness test on (possibly negative) ints is
  `bitTest n k`, via the two's-complement characterisation
  `2^k ≤ n mod 2^(k+1)` (mathematical mod).
* A Python function that can raise is embedded with an `Option` result
  (`none` = an uncaught exception escapes).
-/

/-- Split a character list at every occurrence of `sep` (the separator is
dropped); the result is never empty.  Agrees with Python's
`str.split(sep)` for a one-character separator, including `[""]` on `""`. -/
def splitOnChar (sep : Char) : List Char → List (List Char)
  | [] => [[]]
  | c :: rest =>
      match splitOnChar sep rest with
      | [] => [[]]
      | g :: gs => if c = sep then [] :: g :: gs else (c :: g) :: gs

/-- Python `str.strip()` (ASCII whitespace). -/
def pyStrip (cs : List Char) : List Char :=
  ((cs.dropWhile Char.isWhitespace).reverse.dropWhile Char.isWhitespace).reverse

/-- Value of a nonempty ASCII digit run. -/
def digitsToNat (cs : List Char) : ℕ :=
  cs.foldl (fun a c => a * 10 + (c.toNat - 48)) 0

/-- Python `int(str)`: strip, optional sign, then a nonempty run of ASCII
digits. `none` models `ValueError`. -/
def pyInt? (s : List Char) : Option Int :=
  match pyStrip s with
  | '-' :: rest =>
      if rest ≠ [] ∧ rest.all Char.isDigit then some (-(Int.ofNat (digitsToNat rest)))
      else none
  | '+' :: rest =>
      if rest ≠ [] ∧ rest.all Char.isDigit then some (Int.ofNat (digitsToNat rest))
      else none
  | cs =>
      if cs ≠ [] ∧ cs.all Char.isDigit then some (Int.ofNat (digitsToNat cs))
      else none

/-- Unsigned decimal mantissa of a Python float literal:
`digits`, `digits.digits`, `digits.`, or `.digits`. -/
def pyMantissa? (cs : List Char) : Option ℚ :=
  let ipart := cs.takeWhile Char.isDigit
  match cs.dropWhile Char.isDigit with
  | [] => if ipart = [] then none else some ((digitsToNat ipart : ℕ) : ℚ)
  | '.' :: frac =>
      if frac.all Char.isDigit ∧ ¬(ipart = [] ∧ frac = []) then
        some (((digitsToNat ipart : ℕ) : ℚ) + ((digitsToNat frac : ℕ) : ℚ) / (10 ^ frac.length))
      else none
  | _ => none

/-- Python `float(str)`, as an exact rational.  `none` models `ValueError`
(and, unmodelled, the `inf`/`nan` words). -/
def pyFloat? (s : List Char) : Option ℚ :=
  let cs := pyStrip s
  let signed : ℚ × List Char :=
    match cs with
    | '-' :: r => (-1, r)
    | '+' :: r => (1, r)
    | r => (1, r)
  let mant := signed.2.takeWhile (fun c => c ≠ 'e' ∧ c ≠ 'E')
  match signed.2.dropWhile (fun c => c ≠ 'e' ∧ c ≠ 'E') with
  | [] => (pyMantissa? mant).map (fun m => signed.1 * m)
  | _ :: exCs =>
      match pyMantissa? mant, pyInt? exCs with
      | some m, some e => some (signed.1 * m * (10 : ℚ) ^ e)
      | _, _ => none

/-- Python `int(q)` on a float value: truncation toward zero. -/
def truncToInt (q : ℚ) : Int :=
  if 0 ≤ q then ⌊q⌋ else ⌈q⌉

/-- Truthiness of Python's `n & (2^k)` for an arbitrary (two's-complement)
integer `n`: bit `k` is set iff `2^k ≤ n mod 2^(k+1)`. -/
def bitTest (n : Int) (k : Nat) : Bool :=
  decide ((2 : Int) ^ k ≤ n.emod (2 ^ (k + 1)))

-- ─── Mod bit flags and derivation (source lines 17-37) ───

def MOD_DT : ℕ := 1 <<< 6
def MOD_NC : ℕ := 1 <<< 9
def MOD_HT : ℕ := 1 <<< 8

/-- `mods_to_speed_rate` (source lines 22-28).  The inbound mod bitmask is a
nonnegative flag word, so it is embedded over `ℕ`, where Python's `&` is
exactly `Nat.land`. -/
def mods_to_speed_rate (mods_number : ℕ) : ℚ :=
  if mods_number &&& MOD_DT ≠ 0 ∨ mods_number &&& MOD_NC ≠ 0 then 3/2
  else if mods_number &&& MOD_HT ≠ 0 then 3/4
  else 1

/-- `mods_to_label` (source lines 30-37). -/
def mods_to_label (mods_number : ℕ) : String :=
  if mods_number &&& MOD_NC ≠ 0 then "NC"
  else if mods_number &&& MOD_DT ≠ 0 then "DT"
  else if mods_number &&& MOD_HT ≠ 0 then "HT"
  else ""

-- ─── Chart parser (source lines 71-138) ───

/-- The `TaikoNote` dataclass (source lines 71-75); `end_time_ms` defaults
to `0` when a construction site omits it. -/
structure TaikoNote where
  time_ms : Int
  note_type : String
  end_time_ms : Int := 0
  deriving Repr, DecidableEq

/-- Classification of one stripped `[HitObjects]` line (source lines 95-135).
Outer `none`: an uncaught exception escapes `parse_osu_taiko` (this happens
exactly when a spinner line's field 5 is present but not an integer, because
`int(parts[5])` on source line 109 sits outside every `try`).
`some none`: the line is skipped.  `some (some n)`: the line yields note `n`. -/
def parseHitLine (line : List Char) : Option (Option TaikoNote) :=
  let parts := splitOnChar ',' line
  if parts.length < 5 then some none
  else
    match pyInt? (parts.getD 0 []), pyInt? (parts.getD 2 []),
          pyInt? (parts.getD 3 []), pyInt? (parts.getD 4 []) with
    | some _x, some hit_time, some obj_type, some hitsound =>
        if bitTest obj_type 3 then
          -- spinner (type & 8)
          if parts.length > 5 then
            match pyInt? (parts.getD 5 []) with
            | some end_time => some (some ⟨hit_time, "spinner", end_time⟩)
            | none => none
          else some (some ⟨hit_time, "spinner", hit_time⟩)
        else if bitTest obj_type 1 then
          -- slider → drumroll (type & 2)
          let end_time :=
            if parts.length > 7 then
              match pyInt? (parts.getD 6 []), pyFloat? (parts.getD 7 []) with
              | some _slides, some length => hit_time + truncToInt (length * 10)
              | _, _ => hit_time
            else hit_time
          let big := bitTest hitsound 2
          some (some ⟨hit_time, if big then "drumroll_big" else "drumroll", end_time⟩)
        else
          let is_kat := bitTest hitsound 1 || bitTest hitsound 3
          let is_big := bitTest hitsound 2
          some (some ⟨hit_time,
            if is_kat then (if is_big then "kat_big" else "kat")
            else (if is_big then "don_big" else "don"), 0⟩)
    | _, _, _, _ => some none

/-- The line loop of `parse_osu_taiko` (source lines 84-135), with the
`[HitObjects]` section state and the early `break` on a following section
header.  `none` propagates the uncaught `ValueError` of `parseHitLine`. -/
def parseLines : Bool → List (List Char) → Option (List TaikoNote)
  | _, [] => some []
  | in_hit_objects, raw_line :: rest =>
      let line := pyStrip raw_line
      if line = "[HitObjects]".toList then parseLines true rest
      else if (line.headD ' ' = '[') ∧ in_hit_objects then some []
      else if ¬in_hit_objects ∨ line = [] ∨ line.take 2 = "//".toList then
        parseLines in_hit_objects rest
      else
        match parseHitLine line with
        | none => none
        | some none => parseLines in_hit_objects rest
        | some (some note) => (parseLines in_hit_objects rest).map (note :: ·)

/-- The notes collected by `parse_osu_taiko` before the final sort. -/
def collectNotes (content : String) : Option (List TaikoNote) :=
  parseLines false (splitOnChar '\n' content.toList)

/-- Insertion of a note into a list, before the first element whose onset is
not strictly smaller.  Used to realise `notes.sort(key=lambda n: n.time_ms)`:
a stable ascending sort by `time_ms` (Python's sort is stable, and the stable
sorted permutation is unique, so any stable sort is extensionally equal). -/
def insertNote (n : TaikoNote) : List TaikoNote → List TaikoNote
  | [] => [n]
  | m :: rest =>
      if m.time_ms < n.time_ms then m :: insertNote n rest
      else n :: m :: rest

/-- Stable insertion sort by `time_ms` (source line 137). -/
def sortNotes : List TaikoNote → List TaikoNote
  | [] => []
  | n :: rest => insertNote n (sortNotes rest)

/-- `parse_osu_taiko` (source lines 77-138).  `none` models the function
raising an uncaught exception. -/
def parse_osu_taiko (content : String) : Option (List TaikoNote) :=
  (collectNotes content).map sortNotes

-- ─── Shared game state and websocket callbacks (source lines 151-294) ───

/-- The inbound fields of one coarse-stream (`/websocket/v2`) JSON message
that `on_message` reads (source lines 200-240).  `state_name` is
`data["state"]["name"]` when present; `mods_number` is
`data["play"]["mods"]["number"]` (`on_message` substitutes `0` when absent);
`live` is `data["beatmap"]["time"]["live"]`; `beatmapFile` and `songs`
default to `""` when absent, exactly as the `.get(..., "")` calls do. -/
structure CoarseMsg where
  state_name : Option String := none
  mods_number : Option ℕ := none
  live : Option Int := none
  beatmapFile : String := ""
  songs : String := ""

/-- The `GameState` dataclass (source lines 151-173) with its field defaults;
the `threading.Lock` and the unused `audio_filename` are not modelled.
`play_start_wall` holds a `time.perf_counter()` wall-clock reading, embedded
as an exact rational. -/
structure GameState where
  state_name : String := "Menu"
  game_time_ms : Int := 0
  beatmap_path : String := ""
  songs_folder : String := ""
  notes : List TaikoNote := []
  loaded_beatmap_path : String := ""
  play_start_wall : ℚ := 0
  play_start_game : Int := 0
  playing : Bool := false
  prev_state : String := "Menu"
  mods_number : ℕ := 0
  speed_rate : ℚ := 1
  mod_label : String := ""

/-- The process-wide `state = GameState()` initial value (source line 176). -/
def initState : GameState := {}

/-- Play-start block of `on_message` (source lines 204-215): runs when the
incoming phase is `"Playing"` and the `prev_state` field is not
`"Playing"`; captures mods, speed, label, and the clock anchor. -/
def stepPlayStart (now : ℚ) (new_state_name : String) (m : CoarseMsg)
    (s : GameState) : GameState :=
  if new_state_name = "Playing" ∧ s.prev_state ≠ "Playing" then
    let mods_num := m.mods_number.getD 0
    { s with mods_number := mods_num
           , speed_rate := mods_to_speed_rate mods_num
           , mod_label := mods_to_label mods_num
           , play_start_wall := now
           , play_start_game := m.live.getD 0
           , playing := true }
  else s

/-- `if new_state_name != "Playing": state.playing = False`
(source lines 217-218). -/
def stepNotPlaying (new_state_name : String) (s : GameState) : GameState :=
  if new_state_name ≠ "Playing" then { s with playing := false } else s

/-- `state.prev_state = state.state_name; state.state_name = new_state_name`
(source lines 220-221).  Note the order: `prev_state` receives the *old*
`state_name`, i.e. the phase recorded before this message. -/
def stepAdvanceState (new_state_name : String) (s : GameState) : GameState :=
  { s with prev_state := s.state_name, state_name := new_state_name }

/-- `if live_time is not None: state.game_time_ms = live_time`
(source lines 224-226). -/
def stepLiveTime (m : CoarseMsg) (s : GameState) : GameState :=
  match m.live with
  | some t => { s with game_time_ms := t }
  | none => s

/-- `if new_songs and new_songs != state.songs_folder` (source lines 233-235). -/
def stepSongs (m : CoarseMsg) (s : GameState) : GameState :=
  if m.songs ≠ "" ∧ m.songs ≠ s.songs_folder then
    { s with songs_folder := m.songs }
  else s

/-- `if new_beatmap and new_beatmap != state.beatmap_path` (source lines
237-240): record the new path and clear the loaded notes. -/
def stepBeatmap (m : CoarseMsg) (s : GameState) : GameState :=
  if m.beatmapFile ≠ "" ∧ m.beatmapFile ≠ s.beatmap_path then
    { s with beatmap_path := m.beatmapFile, notes := [] }
  else s

/-- The coarse-stream callback `on_message` (source lines 183-240), with the
JSON already decoded into `m` and the `time.perf_counter()` reading passed
in as `now`.  A message that fails JSON decoding leaves the state unchanged
and is simply not fed to this function. -/
def on_message (now : ℚ) (s : GameState) (m : CoarseMsg) : GameState :=
  let new_state_name := m.state_name.getD s.state_name
  stepBeatmap m (stepSongs m (stepLiveTime m (stepAdvanceState new_state_name
    (stepNotPlaying new_state_name (stepPlayStart now new_state_name m s)))))

/-- The precise-stream callback `on_precise_message` (source lines 270-279):
`state.game_time_ms = t` when the message carries `currentTime`, otherwise
no change. -/
def on_precise_message (s : GameState) (t : Option Int) : GameState :=
  match t with
  | some v => { s with game_time_ms := v }
  | none => s

-- ─── Render path (source lines 465-573) ───

/-- The current-time value the `draw` loop reads under the lock
(source lines 491-495): `current_ms = state.game_time_ms`, used directly as
the playback position for note placement. -/
def renderCurrentMs (s : GameState) : Int :=
  s.game_time_ms

/-- `LOOKAHEAD_MS` (source line 49). -/
def LOOKAHEAD_MS : Int := 4000

/-- Whether the `draw` loop hides a note at playback position `current_ms`
(source lines 504-550): drumrolls and spinners are hidden once
`end_time_ms - current < 0` or `time_ms - current > LOOKAHEAD_MS`; every
other note once `time_ms - current < 0` or `time_ms - current >
LOOKAHEAD_MS`. -/
def noteHidden (note : TaikoNote) (current_ms : Int) : Bool :=
  if note.note_type = "drumroll" ∨ note.note_type = "drumroll_big" then
    decide (note.end_time_ms - current_ms < 0 ∨ note.time_ms - current_ms > LOOKAHEAD_MS)
  else if note.note_type = "spinner" then
    decide (note.end_time_ms - current_ms < 0 ∨ note.time_ms - current_ms > LOOKAHEAD_MS)
  else
    decide (note.time_ms - current_ms < 0 ∨ note.time_ms - current_ms > LOOKAHEAD_MS)

/-- The span-type note kinds (sustained notes: drumrolls and spinners). -/
def isSpanType (t : String) : Bool :=
  t = "drumroll" || t = "drumroll_big" || t = "spinner"

-- ─── Spec-side definitions for comparison ───

/-- The spec's `ClockAnchor`: `{wall_reference, game_reference, speed}`. -/
structure ClockAnchor where
  wall_reference : ℚ
  game_reference : Int
  speed : ℚ

/-- The spec's `current_estimate(now)` formula, written from the spec's
words: `anchor.game_reference + round((now - anchor.wall_reference) *
anchor.speed)`, to be compared against what the render path actually uses. -/
def current_estimate_spec (a : ClockAnchor) (now : ℚ) : Int :=
  a.game_reference + round ((now - a.wall_reference) * a.speed)

/-- One inbound event from either stream: a coarse `/v2` message or a
precise `/v2/precise` sample (`none` = a message without `currentTime`). -/
inductive Msg where
  | coarse (m : CoarseMsg)
  | precise (t : Option Int)

/-- Apply one timed event to the shared state (the wall-clock reading is
only consulted by the coarse callback's play-start block). -/
def applyMsg (s : GameState) : ℚ × Msg → GameState
  | (now, Msg.coarse m) => on_message now s m
  | (_, Msg.precise t) => on_precise_message s t

/-- Fold a whole timed event interleaving over the shared state. -/
def applyMsgs (s : GameState) (evs : List (ℚ × Msg)) : GameState :=
  evs.foldl applyMsg s

/-- The most recent time sample carried by an event list (a coarse message's
`beatmap.time.live` or a precise message's `currentTime`), starting from
default `d`. -/
def lastSampleFrom (d : Int) : List (ℚ × Msg) → Int
  | [] => d
  | ev :: rest =>
      lastSampleFrom (match ev.2 with
        | Msg.coarse m => m.live.getD d
        | Msg.precise t => t.getD d) rest

-- ─── Field-preservation lemmas for the `on_message` steps ───

@[simp] lemma stepPlayStart_game_time (now nm m s) :
    (stepPlayStart now nm m s).game_time_ms = s.game_time_ms := by
  unfold stepPlayStart; split <;> rfl

@[simp] lemma stepPlayStart_beatmap_path (now nm m s) :
    (stepPlayStart now nm m s).beatmap_path = s.beatmap_path := by
  unfold stepPlayStart; split <;> rfl

@[simp] lemma stepPlayStart_songs_folder (now nm m s) :
    (stepPlayStart now nm m s).songs_folder = s.songs_folder := by
  unfold stepPlayStart; split <;> rfl

@[simp] lemma stepPlayStart_notes (now nm m s) :
    (stepPlayStart now nm m s).notes = s.notes := by
  unfold stepPlayStart; split <;> rfl

@[simp] lemma stepNotPlaying_game_time (nm s) :
    (stepNotPlaying nm s).game_time_ms = s.game_time_ms := by
  unfold stepNotPlaying; split <;> rfl

@[simp] lemma stepNotPlaying_beatmap_path (nm s) :
    (stepNotPlaying nm s).beatmap_path = s.beatmap_path := by
  unfold stepNotPlaying; split <;> rfl

@[simp] lemma stepNotPlaying_songs_folder (nm s) :
    (stepNotPlaying nm s).songs_folder = s.songs_folder := by
  unfold stepNotPlaying; split <;> rfl

@[simp] lemma stepNotPlaying_notes (nm s) :
    (stepNotPlaying nm s).notes = s.notes := by
  unfold stepNotPlaying; split <;> rfl

@[simp] lemma stepAdvanceState_game_time (nm s) :
    (stepAdvanceState nm s).game_time_ms = s.game_time_ms := rfl

@[simp] lemma stepAdvanceState_beatmap_path (nm s) :
    (stepAdvanceState nm s).beatmap_path = s.beatmap_path := rfl

@[simp] lemma stepAdvanceState_songs_folder (nm s) :
    (stepAdvanceState nm s).songs_folder = s.songs_folder := rfl

@[simp] lemma stepAdvanceState_notes (nm s) :
    (stepAdvanceState nm s).notes = s.notes := rfl

@[simp] lemma stepLiveTime_game_time (m s) :
    (stepLiveTime m s).game_time_ms = m.live.getD s.game_time_ms := by
  unfold stepLiveTime; cases m.live <;> rfl

@[simp] lemma stepLiveTime_beatmap_path (m s) :
    (stepLiveTime m s).beatmap_path = s.beatmap_path := by
  unfold stepLiveTime; cases m.live <;> rfl

@[simp] lemma stepLiveTime_songs_folder (m s) :
    (stepLiveTime m s).songs_folder = s.songs_folder := by
  unfold stepLiveTime; cases m.live <;> rfl

@[simp] lemma stepLiveTime_notes (m s) :
    (stepLiveTime m s).notes = s.notes := by
  unfold stepLiveTime; cases m.live <;> rfl

@[simp] lemma stepSongs_game_time (m s) :
    (stepSongs m s).game_time_ms = s.game_time_ms := by
  unfold stepSongs; split <;> rfl

@[simp] lemma stepSongs_beatmap_path (m s) :
    (stepSongs m s).beatmap_path = s.beatmap_path := by
  unfold stepSongs; split <;> rfl

@[simp] lemma stepSongs_notes (m s) :
    (stepSongs m s).notes = s.notes := by
  unfold stepSongs; split <;> rfl

@[simp] lemma stepBeatmap_game_time (m s) :
    (stepBeatmap m s).game_time_ms = s.game_time_ms := by
  unfold stepBeatmap; split <;> rfl

@[simp] lemma stepBeatmap_songs_folder (m s) :
    (stepBeatmap m s).songs_folder = s.songs_folder := by
  unfold stepBeatmap; split <;> rfl

/-- The coarse callback leaves `game_time_ms` at the message's `live` field
when present, else unchanged; no other part of `on_message` touches it. -/
lemma on_message_game_time (now : ℚ) (s : GameState) (m : CoarseMsg) :
    (on_message now s m).game_time_ms = m.live.getD s.game_time_ms := by
  unfold on_message; simp

-- ─── Sort lemmas: membership, sortedness, stability ───

lemma mem_insertNote (x n : TaikoNote) :
    ∀ l, x ∈ insertNote n l ↔ x = n ∨ x ∈ l
  | [] => by simp [insertNote]
  | m :: rest => by
      simp only [insertNote]
      split <;> simp only [List.mem_cons, mem_insertNote x n rest] <;> tauto

lemma mem_sortNotes (x : TaikoNote) : ∀ l, x ∈ sortNotes l ↔ x ∈ l
  | [] => by simp [sortNotes]
  | n :: rest => by
      simp only [sortNotes, mem_insertNote, List.mem_cons, mem_sortNotes x rest]

lemma pairwise_insertNote (n : TaikoNote) :
    ∀ l, l.Pairwise (fun a b => a.time_ms ≤ b.time_ms) →
      (insertNote n l).Pairwise (fun a b => a.time_ms ≤ b.time_ms)
  | [] => by simp [insertNote]
  | m :: rest => by
      intro h
      rw [List.pairwise_cons] at h
      simp only [insertNote]
      split
      · rename_i hlt
        rw [List.pairwise_cons]
        refine ⟨fun x hx => ?_, pairwise_insertNote n rest h.2⟩
        rcases (mem_insertNote x n rest).1 hx with rfl | hmem
        · omega
        · exact h.1 x hmem
      · rename_i hge
        rw [List.pairwise_cons]
        refine ⟨fun x hx => ?_, List.pairwise_cons.2 h⟩
        rcases List.mem_cons.1 hx with rfl | hmem
        · omega
        · have := h.1 x hmem; omega

lemma sortNotes_pairwise :
    ∀ l, (sortNotes l).Pairwise (fun a b => a.time_ms ≤ b.time_ms)
  | [] => by simp [sortNotes]
  | n :: rest => pairwise_insertNote n _ (sortNotes_pairwise rest)

lemma filter_insertNote (n : TaikoNote) (t : Int) :
    ∀ l, (insertNote n l).filter (fun x => x.time_ms == t) =
      (if n.time_ms == t then n :: l.filter (fun x => x.time_ms == t)
       else l.filter (fun x => x.time_ms == t))
  | [] => by
      simp only [insertNote, List.filter_cons, List.filter_nil]
  | m :: rest => by
      simp only [insertNote]
      split
      · rename_i hlt
        by_cases hm : (m.time_ms == t) = true <;>
          by_cases hn : (n.time_ms == t) = true
        · simp only [beq_iff_eq] at hm hn; omega
        all_goals simp [List.filter_cons, hm, hn, filter_insertNote n t rest]
      · simp [List.filter_cons]

lemma filter_sortNotes (t : Int) :
    ∀ l, (sortNotes l).filter (fun x => x.time_ms == t) =
      l.filter (fun x => x.time_ms == t)
  | [] => rfl
  | n :: rest => by
      simp [sortNotes, filter_insertNote n t, filter_sortNotes t rest,
        List.filter_cons]

-- ─── Parser note-shape invariant ───

/-- Every note a `[HitObjects]` line yields is a spinner, a drumroll, or an
instantaneous note constructed with the `end_time_ms` default `0`. -/
lemma parseHitLine_shape (line : List Char) (note : TaikoNote)
    (h : parseHitLine line = some (some note)) :
    note.note_type = "spinner" ∨ note.note_type = "drumroll" ∨
    note.note_type = "drumroll_big" ∨ note.end_time_ms = 0 := by
  simp only [parseHitLine] at h
  split at h
  · simp at h
  · split at h
    · split at h
      · split at h
        · split at h
          · rcases Option.some.inj (Option.some.inj h) with rfl
            left; rfl
          · simp at h
        · rcases Option.some.inj (Option.some.inj h) with rfl
          left; rfl
      · split at h
        · rcases Option.some.inj (Option.some.inj h) with rfl
          dsimp only
          split
          · right; right; left; rfl
          · right; left; rfl
        · rcases Option.some.inj (Option.some.inj h) with rfl
          right; right; right; rfl
    · simp at h

/-- The note-shape invariant extended over the whole line loop. -/
lemma parseLines_shape : ∀ (lines : List (List Char)) (flag : Bool)
    (raw : List TaikoNote), parseLines flag lines = some raw → ∀ n ∈ raw,
    n.note_type = "spinner" ∨ n.note_type = "drumroll" ∨
    n.note_type = "drumroll_big" ∨ n.end_time_ms = 0 := by
  intro lines
  induction lines with
  | nil =>
      intro flag raw h n hn
      simp only [parseLines] at h
      rcases Option.some.inj h with rfl
      simp at hn
  | cons l rest ih =>
      intro flag raw h n hn
      simp only [parseLines] at h
      split at h
      · exact ih true raw h n hn
      · split at h
        · rcases Option.some.inj h with rfl
          simp at hn
        · split at h
          · exact ih flag raw h n hn
          · split at h
            · exact absurd h (by simp)
            · exact ih flag raw h n hn
            · rename_i note hnote
              cases hp : parseLines flag rest with
              | none => rw [hp] at h; exact Option.noConfusion h
              | some rawR =>
                  rw [hp] at h
                  rcases Option.some.inj h with rfl
                  rcases List.mem_cons.1 hn with rfl | hmem
                  · exact parseHitLine_shape _ _ hnote
                  · exact ih flag rawR hp n hmem

-- ─── C9: modifier bitmask → speed and label ───

lemma land_two_pow_ne_zero (m k : ℕ) : m &&& 2 ^ k ≠ 0 ↔ m.testBit k := by
  rw [Nat.and_two_pow]
  cases h : m.testBit k <;> simp [h]

/-- C9: for every modifier bitmask `m`, the derived speed is `1.5` iff bit 6
(value 64) or bit 9 (value 512) is set, else `0.75` iff bit 8 (value 256) is
set, else `1.0`; the derived label is `"NC"` iff bit 9 is set, else `"DT"`
iff bit 6, else `"HT"` iff bit 8, else empty — so bit 9 yields `"NC"`
regardless of bit 6. -/
theorem spec_c9_mod_speed_label (m : ℕ) :
    mods_to_speed_rate m =
      (if m.testBit 6 || m.testBit 9 then (3/2 : ℚ) else if m.testBit 8 then 3/4 else 1)
    ∧ mods_to_label m =
      (if m.testBit 9 then "NC" else if m.testBit 6 then "DT"
       else if m.testBit 8 then "HT" else "") := by
  have e6 : MOD_DT = 2 ^ 6 := rfl
  have e9 : MOD_NC = 2 ^ 9 := rfl
  have e8 : MOD_HT = 2 ^ 8 := rfl
  have h6 : m &&& MOD_DT ≠ 0 ↔ m.testBit 6 := by
    rw [e6]; exact land_two_pow_ne_zero m 6
  have h9 : m &&& MOD_NC ≠ 0 ↔ m.testBit 9 := by
    rw [e9]; exact land_two_pow_ne_zero m 9
  have h8 : m &&& MOD_HT ≠ 0 ↔ m.testBit 8 := by
    rw [e8]; exact land_two_pow_ne_zero m 8
  constructor <;>
    (by_cases b6 : m.testBit 6 <;> by_cases b9 : m.testBit 9 <;> by_cases b8 : m.testBit 8 <;>
      simp [mods_to_speed_rate, mods_to_label, h6, h9, h8, b6, b9, b8])

-- ─── C7: span vs. instantaneous note visibility ───

/-- C7: at render time, a non-span note is hidden exactly when its onset has
passed the hit line (`time_ms < current`) or it lies beyond the lookahead
horizon, while a span-type note (drumroll or spinner) whose onset has passed
remains visible exactly until `end_time_ms < current`. -/
theorem spec_c7_span_visibility (n : TaikoNote) (current : Int) :
    (isSpanType n.note_type = false →
      (noteHidden n current = true ↔
        (n.time_ms < current ∨ current + LOOKAHEAD_MS < n.time_ms)))
    ∧ (isSpanType n.note_type = true → n.time_ms < current →
      (noteHidden n current = true ↔ n.end_time_ms < current)) := by
  constructor
  · intro hsp
    have h1 : n.note_type ≠ "drumroll" := by intro hh; simp [isSpanType, hh] at hsp
    have h2 : n.note_type ≠ "drumroll_big" := by intro hh; simp [isSpanType, hh] at hsp
    have h3 : n.note_type ≠ "spinner" := by intro hh; simp [isSpanType, hh] at hsp
    simp only [noteHidden, LOOKAHEAD_MS]
    rw [if_neg (by tauto), if_neg h3]
    simp only [decide_eq_true_eq]
    omega
  · intro hsp htime
    have hd : n.note_type = "drumroll" ∨ n.note_type = "drumroll_big" ∨
        n.note_type = "spinner" := by
      by_contra hc
      push_neg at hc
      simp [isSpanType, hc.1, hc.2.1, hc.2.2] at hsp
    simp only [noteHidden, LOOKAHEAD_MS]
    rcases hd with h | h | h
    · rw [if_pos (Or.inl h)]
      simp only [decide_eq_true_eq]; omega
    · rw [if_pos (Or.inr h)]
      simp only [decide_eq_true_eq]; omega
    · rw [if_neg (by simp [h]), if_pos h]
      simp only [decide_eq_true_eq]; omega

/-- Witness for C7: a don at 100 is hidden at `current = 300` (onset passed),
while a drumroll spanning 100–600 is still visible at 300. -/
theorem spec_c7_witness :
    (noteHidden ⟨100, "don", 0⟩ 300 = true ↔
      ((100 : Int) < 300 ∨ 300 + LOOKAHEAD_MS < 100))
    ∧ (noteHidden ⟨100, "drumroll", 600⟩ 300 = true ↔ ((600 : Int) < 300)) :=
  ⟨(spec_c7_span_visibility ⟨100, "don", 0⟩ 300).1 (by decide),
   (spec_c7_span_visibility ⟨100, "drumroll", 600⟩ 300).2 (by decide) (by decide)⟩

-- ─── C2: end_time_ms versus time_ms ───

/-- Counterexample for C2: the chart line `0,0,1000,1,0` yields the
instantaneous note `⟨1000, "don", 0⟩`, whose `end_time_ms` is the dataclass
default `0`, not `time_ms = 1000`; in particular `end_time_ms ≥ time_ms`
fails. -/
theorem spec_c2_cex :
    parse_osu_taiko "[HitObjects]\n0,0,1000,1,0" =
      some [{ time_ms := 1000, note_type := "don", end_time_ms := 0 }]
    ∧ isSpanType "don" = false ∧ ¬ ((1000 : Int) ≤ (0 : Int)) := by
  refine ⟨by decide, by decide, by decide⟩

/-- C2 (amended): on every input on which the parser succeeds, every
instantaneous (non-span) note in the output has `end_time_ms = 0`, the
dataclass default — not `end_time_ms = time_ms`, and no `end_time_ms ≥
time_ms` invariant holds. -/
theorem spec_c2_amended (content : String) (notes : List TaikoNote)
    (h : parse_osu_taiko content = some notes) :
    ∀ n ∈ notes, isSpanType n.note_type = false → n.end_time_ms = 0 := by
  intro n hn hsp
  unfold parse_osu_taiko at h
  cases hc : collectNotes content with
  | none => rw [hc] at h; exact Option.noConfusion h
  | some raw =>
      rw [hc] at h
      rcases Option.some.inj h with rfl
      have hmem : n ∈ raw := (mem_sortNotes n raw).1 hn
      have hshape := parseLines_shape _ _ _ hc n hmem
      rcases hshape with hh | hh | hh | hh
      · simp [isSpanType, hh] at hsp
      · simp [isSpanType, hh] at hsp
      · simp [isSpanType, hh] at hsp
      · exact hh

/-- Witness for C2 (amended), at the one-line chart `0,0,1000,1,0`. -/
theorem spec_c2_amended_witness :
    isSpanType "don" = false ∧
    ({ time_ms := 1000, note_type := "don", end_time_ms := 0 } : TaikoNote).end_time_ms = 0 :=
  ⟨by decide,
   spec_c2_amended "[HitObjects]\n0,0,1000,1,0"
     [{ time_ms := 1000, note_type := "don", end_time_ms := 0 }] (by decide)
     { time_ms := 1000, note_type := "don", end_time_ms := 0 } (by decide) (by decide)⟩

-- ─── C3: the parser can raise ───

/-- C3: the spinner line `0,0,100,8,0,x` makes `parse_osu_taiko` raise an
uncaught `ValueError` (modelled as `none`): `int(parts[5])` on source line
109 is outside every `try`, so this malformed line is fatal rather than
skipped. -/
theorem spec_c3_bug_eval :
    parse_osu_taiko "[HitObjects]\n0,0,100,8,0,x" = none := by decide

-- ─── C8: output sorted by onset, stable on ties ───

/-- C8: the parser output is the collected note list sorted non-decreasing
by `time_ms`, and for every onset value the notes with that onset appear in
their original file order (stability, stated via `filter`). -/
theorem spec_c8_sorted_stable (content : String) (raw notes : List TaikoNote)
    (h1 : collectNotes content = some raw)
    (h2 : parse_osu_taiko content = some notes) :
    notes.Pairwise (fun a b => a.time_ms ≤ b.time_ms) ∧
    ∀ t : Int, notes.filter (fun n => n.time_ms == t) =
      raw.filter (fun n => n.time_ms == t) := by
  have hs : notes = sortNotes raw := by
    unfold parse_osu_taiko at h2
    rw [h1] at h2
    exact (Option.some.inj h2).symm
  subst hs
  exact ⟨sortNotes_pairwise raw, fun t => filter_sortNotes t raw⟩

/-- Witness for C8: a chart whose lines arrive as onsets 200, 100 (kat),
100 (don); the output is sorted and the two onset-100 notes keep their file
order (kat before don). -/
theorem spec_c8_witness :
    ([⟨100, "kat", 0⟩, ⟨100, "don", 0⟩, ⟨200, "don", 0⟩] : List TaikoNote).Pairwise
      (fun a b => a.time_ms ≤ b.time_ms) ∧
    ([⟨100, "kat", 0⟩, ⟨100, "don", 0⟩, ⟨200, "don", 0⟩] : List TaikoNote).filter
        (fun n => n.time_ms == 100) =
      ([⟨200, "don", 0⟩, ⟨100, "kat", 0⟩, ⟨100, "don", 0⟩] : List TaikoNote).filter
        (fun n => n.time_ms == 100) := by
  have h := spec_c8_sorted_stable "[HitObjects]\n0,0,200,1,0\n0,0,100,1,8\n0,0,100,1,0"
    [⟨200, "don", 0⟩, ⟨100, "kat", 0⟩, ⟨100, "don", 0⟩]
    [⟨100, "kat", 0⟩, ⟨100, "don", 0⟩, ⟨200, "don", 0⟩]
    (by decide) (by decide)
  exact ⟨h.1, h.2 100⟩

-- ─── C1: what the render path uses as the current time ───

/-- The coarse event of the counterexample trace for C1: a play-start event
reporting phase `"Playing"`, no mods, and live time 1000 ms. -/
def c1_event : CoarseMsg :=
  { state_name := some "Playing", mods_number := some 0, live := some 1000 }

/-- The state after processing `c1_event` at wall clock 0: the anchor
`{wall = 0, game = 1000, speed = 1}` has been captured. -/
def c1_state : GameState := on_message 0 initState c1_event

/-- Counterexample for C1: with the live anchor `{wall = 0, game = 1000,
speed = 1}` captured at play start, the spec formula yields 1500 at a wall
clock 500 later, but the value the render path reads (`state.game_time_ms`)
is still 1000: `draw` never extrapolates from the anchor, it uses the last
received sample directly. -/
theorem spec_c1_cex :
    c1_state.play_start_wall = 0 ∧ c1_state.play_start_game = 1000 ∧
    c1_state.speed_rate = 1 ∧
    current_estimate_spec
      ⟨c1_state.play_start_wall, c1_state.play_start_game, c1_state.speed_rate⟩ 500 = 1500 ∧
    renderCurrentMs c1_state = 1000 ∧
    renderCurrentMs c1_state ≠ current_estimate_spec
      ⟨c1_state.play_start_wall, c1_state.play_start_game, c1_state.speed_rate⟩ 500 := by
  have hw : c1_state.play_start_wall = 0 := by decide
  have hg : c1_state.play_start_game = 1000 := by decide
  have hs : c1_state.speed_rate = 1 := by decide
  have hr : renderCurrentMs c1_state = 1000 := by decide
  have hest : current_estimate_spec
      ⟨c1_state.play_start_wall, c1_state.play_start_game, c1_state.speed_rate⟩ 500 = 1500 := by
    rw [hw, hg, hs]
    unfold current_estimate_spec
    norm_num
  refine ⟨hw, hg, hs, hest, hr, ?_⟩
  rw [hr, hest]
  decide

lemma applyMsgs_game_time : ∀ (evs : List (ℚ × Msg)) (s : GameState),
    renderCurrentMs (applyMsgs s evs) = lastSampleFrom s.game_time_ms evs
  | [], _ => rfl
  | (now, msg) :: rest, s => by
      show renderCurrentMs (applyMsgs (applyMsg s (now, msg)) rest) = _
      rw [applyMsgs_game_time rest (applyMsg s (now, msg))]
      show lastSampleFrom _ rest = lastSampleFrom _ rest
      congr 1
      cases msg with
      | coarse m =>
          rw [show applyMsg s (now, Msg.coarse m) = on_message now s m from rfl,
            on_message_game_time]
      | precise t => cases t <;> rfl

/-- C1 (amended): for every interleaving of coarse and precise events, the
current-time value the render path reads equals the most recent time sample
carried by the streams (`beatmap.time.live` or `currentTime`), `0` before
any sample; it is independent of the wall-clock readings and of the captured
anchor and speed — no extrapolation is performed. -/
theorem spec_c1_amended (evs : List (ℚ × Msg)) :
    renderCurrentMs (applyMsgs initState evs) = lastSampleFrom 0 evs :=
  applyMsgs_game_time evs initState

-- ─── C4: the play-start transition is not edge-triggered ───

/-- First event of the C4 trace: phase `"Playing"` with live time 1000,
processed at wall clock 0 from the initial (`"Menu"`) state. -/
def c4_state1 : GameState := on_message 0 initState
  { state_name := some "Playing", live := some 1000 }

/-- Second consecutive `"Playing"` event, live time 2000, wall clock 1. -/
def c4_state2 : GameState := on_message 1 c4_state1
  { state_name := some "Playing", live := some 2000 }

/-- C4: the play-start block also fires on the second of two consecutive
`"Playing"` events: after `c4_state1` (which already reported `"Playing"`
and captured anchor game time 1000 at wall 0), the next `"Playing"` event
re-captures the anchor (game 2000, wall 1), because `prev_state` lags one
event behind the previously reported phase. -/
theorem spec_c4_bug_eval :
    c4_state1.state_name = "Playing" ∧ c4_state1.playing = true ∧
    c4_state1.play_start_game = 1000 ∧ c4_state1.play_start_wall = 0 ∧
    c4_state2.play_start_game = 2000 ∧ c4_state2.play_start_wall = 1 ∧
    c4_state2.playing = true := by decide

-- ─── C5: a coarse sample can replace the anchor while Active ───

/-- First event of the C5 trace: the transition to Active at wall clock 0
establishes the anchor (game 1000). -/
def c5_state1 : GameState := on_message 0 initState
  { state_name := some "Playing", live := some 1000 }

/-- A later coarse event (wall clock 2, live 3000) while still Active. -/
def c5_state2 : GameState := on_message 2 c5_state1
  { state_name := some "Playing", live := some 3000 }

/-- C5: the phase became Active at the first event and stayed Active, yet
the second coarse event replaced the anchor established since that
transition (game 1000 → 3000, wall 0 → 2); a precise sample afterwards sets
the render-path time value but never the anchor. -/
theorem spec_c5_bug_eval :
    initState.playing = false ∧ c5_state1.playing = true ∧ c5_state2.playing = true ∧
    c5_state1.play_start_wall = 0 ∧ c5_state1.play_start_game = 1000 ∧
    c5_state2.play_start_wall = 2 ∧ c5_state2.play_start_game = 3000 ∧
    renderCurrentMs (on_precise_message c5_state2 (some 4000)) = 4000 ∧
    (on_precise_message c5_state2 (some 4000)).play_start_game = 3000 := by decide

-- ─── C6: a chart-identifier change clears the timeline ───

/-- C6: every coarse event carrying a nonempty chart identifier different
from the recorded one immediately empties the displayed note timeline and
records the new identifier. -/
theorem spec_c6_clear_on_change (now : ℚ) (s : GameState) (m : CoarseMsg)
    (h1 : m.beatmapFile ≠ "") (h2 : m.beatmapFile ≠ s.beatmap_path) :
    (on_message now s m).notes = [] ∧
    (on_message now s m).beatmap_path = m.beatmapFile := by
  unfold on_message
  have hb : (stepSongs m (stepLiveTime m (stepAdvanceState (m.state_name.getD s.state_name)
      (stepNotPlaying (m.state_name.getD s.state_name)
        (stepPlayStart now (m.state_name.getD s.state_name) m s))))).beatmap_path
      = s.beatmap_path := by simp
  unfold stepBeatmap
  rw [if_pos ⟨h1, by rw [hb]; exact h2⟩]
  exact ⟨rfl, rfl⟩

/-- Witness for C6: a state showing one loaded note for `"a.osu"` receives
an event for `"b.osu"`; the timeline is emptied and the path recorded. -/
theorem spec_c6_witness :
    (on_message 0
      { initState with beatmap_path := "a.osu", notes := [⟨5, "don", 0⟩] }
      { beatmapFile := "b.osu" }).notes = [] ∧
    (on_message 0
      { initState with beatmap_path := "a.osu", notes := [⟨5, "don", 0⟩] }
      { beatmapFile := "b.osu" }).beatmap_path = "b.osu" :=
  spec_c6_clear_on_change 0
    { initState with beatmap_path := "a.osu", notes := [⟨5, "don", 0⟩] }
    { beatmapFile := "b.osu" } (by decide) (by decide)

-- ─── C10: empty identifier fields ───

/-- A stored state with a recorded base folder and chart identifier. -/
def c10_state : GameState :=
  { initState with songs_folder := "old", beatmap_path := "a.osu" }

/-- An event whose chart-identifier field is empty but whose base-folder
field carries a new value. -/
def c10_event : CoarseMsg := { beatmapFile := "", songs := "new" }

/-- Counterexample for C10: an event whose chart-identifier field is the
empty string nevertheless changes the stored base folder (its base-folder
field is nonempty and new), so "the event leaves identifier, base folder and
timeline unchanged" fails as a property of the whole event. -/
theorem spec_c10_cex :
    c10_event.beatmapFile = "" ∧ c10_state.songs_folder = "old" ∧
    (on_message 0 c10_state c10_event).songs_folder = "new" := by decide

/-- C10 (amended): per field — an empty chart-identifier field leaves the
stored chart identifier and the displayed timeline unchanged, and an empty
base-folder field leaves the stored base folder unchanged; an empty value
never overwrites a recorded path and never clears the timeline. -/
theorem spec_c10_amended (now : ℚ) (s : GameState) (m : CoarseMsg) :
    (m.beatmapFile = "" →
      (on_message now s m).beatmap_path = s.beatmap_path ∧
      (on_message now s m).notes = s.notes)
    ∧ (m.songs = "" →
      (on_message now s m).songs_folder = s.songs_folder) := by
  constructor
  · intro h
    unfold on_message stepBeatmap
    rw [if_neg (by simp [h])]
    constructor <;> simp
  · intro h
    unfold on_message
    have : ∀ s' : GameState, (stepSongs m s').songs_folder = s'.songs_folder := by
      intro s'
      unfold stepSongs
      rw [if_neg (by simp [h])]
    simp [this]

/-- Witness for C10 (amended), at the concrete stored state `c10_state`. -/
theorem spec_c10_amended_witness :
    (on_message 0 c10_state { beatmapFile := "", songs := "x" }).beatmap_path
      = c10_state.beatmap_path ∧
    (on_message 0 c10_state { beatmapFile := "", songs := "x" }).notes
      = c10_state.notes ∧
    (on_message 0 c10_state { beatmapFile := "y.osu", songs := "" }).songs_folder
      = c10_state.songs_folder :=
  ⟨((spec_c10_amended 0 c10_state { beatmapFile := "", songs := "x" }).1 rfl).1,
   ((spec_c10_amended 0 c10_state { beatmapFile := "", songs := "x" }).1 rfl).2,
   (spec_c10_amended 0 c10_state { beatmapFile := "y.osu", songs := "" }).2 rfl⟩
